import Mathlib

/-!
Shallow embedding of the `opensky-network-client` library
(`base/request_processor.py`, `opensky_network_client/models.py`,
`opensky_network_client/opensky_network.py`).

Python values that travel through the pipeline are modelled by a `Json`
inductive (numbers as exact rationals), raised exceptions by
`Except PyError`, and the injected HTTP transport by a function from
transport calls to responses.  The second component of `processRequest`'s
result records the transport calls that were issued, so that "no transport
call is made" and "the transmitted query parameter equals ..." are provable
statements.
-/

namespace Opensky

/-- A parsed JSON / plain Python value.  Numbers are exact rationals
(Python ints and floats both map here; none of the verified claims
depends on float rounding). -/
inductive Json where
  | null
  | bool (b : Bool)
  | num (q : Rat)
  | str (s : String)
  | arr (elements : List Json)
  | obj (members : List (String × Json))
deriving Repr

/-- Python exceptions that the embedded code can raise.
`apiError` models `rest_client.errors.APIError.from_response(response)`
(capturing the status code and raw body), `notImplementedError` the
`NotImplementedError` raised by `process_request` for an unknown verb,
`valueError` the `ValueError` of `BoundingBox` validation, and
`keyError` / `typeError` the exceptions of dict lookup, iteration and
positional unpacking during deserialization. -/
inductive PyError where
  | apiError (status_code : Int) (content : String)
  | notImplementedError (msg : String)
  | valueError (msg : String)
  | keyError (key : String)
  | typeError (msg : String)
deriving Repr

/-- Python truthiness of a value (`if response_class and result:`,
`... if many and result else ...`). -/
def Json.truthy : Json → Bool
  | .null => false
  | .bool b => b
  | .num q => q != 0
  | .str s => s != ""
  | .arr elements => !elements.isEmpty
  | .obj members => !members.isEmpty

/-- Python iteration over a value (`for r in result`, `list(result)`,
`cls(*state_vector_list)`): lists yield their elements, dicts their keys,
strings their characters; other values raise `TypeError`. -/
def Json.pyIter : Json → Except PyError (List Json)
  | .arr elements => .ok elements
  | .obj members => .ok (members.map fun kv => Json.str kv.1)
  | .str s => .ok (s.toList.map fun c => Json.str c.toString)
  | _ => .error (.typeError "object is not iterable")

/-- Python subscription `value[key]` with a string key: raises `KeyError`
for a dict without the key and `TypeError` for non-dict values. -/
def Json.getItem (j : Json) (key : String) : Except PyError Json :=
  match j with
  | .obj members =>
      match members.lookup key with
      | some v => .ok v
      | none => .error (.keyError key)
  | _ => .error (.typeError "object is not subscriptable")

/-- The response object produced by the injected transport: `status_code`,
`content` (raw body; only its emptiness is inspected) and the value the
`.json()` method parses the body to. -/
structure Response where
  status_code : Int
  content : String
  json : Json

/-- One call issued to the injected request handler: one constructor per
transport verb method used by `process_request`. -/
inductive TransportCall where
  | get (path : String) (params : List (String × Json)) (json : Option Json)
  | post (path : String) (json : Option Json)
  | delete (path : String) (json : Option Json)
  | put (path : String) (json : Option Json)
deriving Repr

/-- The injected HTTP transport (`request_handler`): a response for every
call it could be asked to perform. -/
def RequestHandler : Type := TransportCall → Response

/-- The value returned by `process_request`: Python's `None`, a raw parsed
JSON value, one deserialized object, or a list of deserialized objects. -/
inductive PyValue (α : Type) where
  | none
  | json (j : Json)
  | obj (a : α)
  | objList (objects : List α)
deriving Repr

/-- Python truthiness of a `process_request` intermediate result. -/
def PyValue.truthy {α : Type} : PyValue α → Bool
  | .none => false
  | .json j => j.truthy
  | .obj _ => true
  | .objList objects => !objects.isEmpty

/-- The method dispatch of `RequestProcessor.process_request` (lines 68-77
of `base/request_processor.py`): `GET` forwards the query parameters
(`extra_params or {}`) and the optional body, `POST` / `DELETE` / `PUT`
forward the body only, and any other method string is unsupported. -/
def dispatch (method path : String) (extra_params : Option (List (String × Json)))
    (json : Option Json) : Option TransportCall :=
  if method = "GET" then some (.get path (extra_params.getD []) json)
  else if method = "POST" then some (.post path json)
  else if method = "DELETE" then some (.delete path json)
  else if method = "PUT" then some (.put path json)
  else none

/-- The final line of `process_request`:
`return list(result) if many and result else result`.  In the branch where
no deserialization happened, `result` is either `None` or the raw parsed
JSON value, so `list(result)` re-materializes the raw value's elements via
Python iteration. -/
def finalizeResult {α : Type} (many : Bool) (result : PyValue α) :
    Except PyError (PyValue α) :=
  if many ∧ result.truthy then
    match result with
    | .json j =>
        match j.pyIter with
        | .error e => .error e
        | .ok elements => .ok (.json (.arr elements))
    | r => .ok r
  else .ok result

/-- Lines 79-90 of `process_request`: status check, body parse and
conditional deserialization of one response.  When `many` is true the
source builds a generator `(response_class.deserialize(r) for r in result)`;
a generator is always truthy, so the final `list(result)` forces every
element (raising the first deserialization or iteration error). -/
def handleResponse {α : Type} (response : Response) (many : Bool)
    (response_class : Option (Json → Except PyError α)) :
    Except PyError (PyValue α) :=
  if response.status_code = 200 ∨ response.status_code = 201 ∨ response.status_code = 204 then
    let result : PyValue α :=
      if response.content.length > 0 then .json response.json else .none
    match response_class, result with
    | some deserialize, .json j =>
        if j.truthy then
          if many then
            match j.pyIter with
            | .error e => .error e
            | .ok elements =>
                match elements.mapM deserialize with
                | .error e => .error e
                | .ok objects => .ok (.objList objects)
          else
            match deserialize j with
            | .error e => .error e
            | .ok a => .ok (.obj a)
        else finalizeResult many result
    | _, _ => finalizeResult many result
  else .error (.apiError response.status_code response.content)

/-- `RequestProcessor.process_request`.  Returns the outcome (value or
raised exception) together with the list of calls issued to the injected
transport. -/
def processRequest {α : Type} (request_handler : RequestHandler)
    (method path : String) (extra_params : Option (List (String × Json)))
    (json : Option Json) (many : Bool)
    (response_class : Option (Json → Except PyError α)) :
    Except PyError (PyValue α) × List TransportCall :=
  match dispatch method path extra_params json with
  | none =>
      (.error (.notImplementedError ("Method " ++ method ++ " is not implemented")), [])
  | some call =>
      (handleResponse (request_handler call) many response_class, [call])

/-- Modelled from the spec: `perform_request`, inherited from the external
`rest_client` base library, is not under `src/`; per the spec each client
method works by "building query parameters and delegating to the Request
Processor", so it is the `process_request` pipeline. -/
def perform_request {α : Type} (request_handler : RequestHandler)
    (method path : String) (extra_params : Option (List (String × Json)))
    (json : Option Json) (many : Bool)
    (response_class : Option (Json → Except PyError α)) :
    Except PyError (PyValue α) × List TransportCall :=
  processRequest request_handler method path extra_params json many response_class

/-- `PositionSource` enum of `models.py` (its numeric values are never
coerced during deserialization, so it only documents the wire values). -/
inductive PositionSource where
  | ASD_B
  | ASTERIX
  | MLAT
  | FLARM
deriving Repr

/-- `StateVector` of `models.py`.  `StateVector.__init__` performs no type
coercion - each attribute is bound to the raw positional argument - so every
field holds a raw `Json` value; the extra positional arguments land in
`_rest_args` (the `*args` parameter). -/
structure StateVector where
  icao24 : Json
  callsign : Json
  origin_country : Json
  time_position_in_sec : Json
  last_contact_in_sec : Json
  longitude : Json
  latitude : Json
  baro_altitude_in_m : Json
  on_ground : Json
  velocity_in_m_per_sec : Json
  true_track : Json
  vertical_rate_in_m_per_sec : Json
  sensors : Json
  geo_altitude_in_m : Json
  squawk : Json
  spi : Json
  position_source : Json
  _rest_args : List Json
deriving Repr

/-- The positional binding performed by `cls(*state_vector_list)` in
`StateVector.from_json`: argument 0 is `icao24`, ..., argument 16 is
`position_source`, and everything after the 17th argument goes to `*args`.
(The `.null` defaults are never reached: the builder is only applied to
lists of length at least 17.) -/
def StateVector.fromArgs (args : List Json) : StateVector where
  icao24 := args.getD 0 .null
  callsign := args.getD 1 .null
  origin_country := args.getD 2 .null
  time_position_in_sec := args.getD 3 .null
  last_contact_in_sec := args.getD 4 .null
  longitude := args.getD 5 .null
  latitude := args.getD 6 .null
  baro_altitude_in_m := args.getD 7 .null
  on_ground := args.getD 8 .null
  velocity_in_m_per_sec := args.getD 9 .null
  true_track := args.getD 10 .null
  vertical_rate_in_m_per_sec := args.getD 11 .null
  sensors := args.getD 12 .null
  geo_altitude_in_m := args.getD 13 .null
  squawk := args.getD 14 .null
  spi := args.getD 15 .null
  position_source := args.getD 16 .null
  _rest_args := args.drop 17

/-- `StateVector.from_json(state_vector_list)`, which is
`cls(*state_vector_list)`: unpacking requires an iterable; the call binds
the 17 required positional parameters (raising `TypeError` when fewer than
17 values are supplied) and collects the rest in `*args`. -/
def StateVector.from_json (state_vector_list : Json) : Except PyError StateVector := do
  let args ← state_vector_list.pyIter
  if 17 ≤ args.length then
    pure (StateVector.fromArgs args)
  else
    throw (.typeError "StateVector() missing required positional arguments")

/-- `States` of `models.py`.  `States.__init__` also computes
`self.time = datetime.fromtimestamp(time_in_sec)`, a value derived from
`time_in_sec`; `fromtimestamp` requires a numeric argument inside the
`datetime`-representable range, which is why construction demands such a
number (see `States.init`). -/
structure States where
  time_in_sec : Rat
  states : List StateVector
deriving Repr

/-- The smallest epoch-seconds value `datetime.fromtimestamp` accepts:
`datetime` covers years 1 to 9999, and 0001-01-01T00:00:00 (taken at UTC;
the exact cutoff shifts by the local-timezone offset) is this many seconds
before the epoch. -/
def fromtimestamp_min : Rat := -62135596800

/-- The largest epoch-seconds value `datetime.fromtimestamp` accepts:
9999-12-31T23:59:59 (taken at UTC; the exact cutoff shifts by the
local-timezone offset) is this many seconds after the epoch. -/
def fromtimestamp_max : Rat := 253402300799

/-- `States.__init__`: stores `time_in_sec` and `states`;
`datetime.fromtimestamp(time_in_sec)` raises `TypeError` unless
`time_in_sec` is a number, and `ValueError` (`OverflowError` for huge
magnitudes; both modelled as `valueError`) when the numeric timestamp
falls outside the `datetime`-representable range of years 1 to 9999. -/
def States.init (time_in_sec : Json) (states : List StateVector) :
    Except PyError States :=
  match time_in_sec with
  | .num q =>
      if q < fromtimestamp_min ∨ q > fromtimestamp_max then
        .error (.valueError "year is out of range")
      else
        .ok { time_in_sec := q, states := states }
  | _ => .error (.typeError "an integer is required")

/-- `States.from_json(states_dict)`: reads `states_dict['time']` and the
list comprehension `[StateVector.from_json(l) for l in states_dict['states']]`,
then calls the constructor. -/
def States.from_json (states_dict : Json) : Except PyError States := do
  let time ← states_dict.getItem "time"
  let statesVal ← states_dict.getItem "states"
  let stateVectorLists ← statesVal.pyIter
  let states ← stateVectorLists.mapM StateVector.from_json
  States.init time states

/-- `FlightConnection` of `models.py`; as with `StateVector`, the
constructor binds raw values without coercion. -/
structure FlightConnection where
  icao24 : Json
  first_seen : Json
  est_departure_airport : Json
  last_seen : Json
  est_arrival_airport : Json
  callsign : Json
  est_departure_airport_horiz_distance : Json
  est_departure_airport_vert_distance : Json
  est_arrival_airport_horiz_distance : Json
  est_arrival_airport_vert_distance : Json
  departure_airport_candidates_count : Json
  arrival_airport_candidates_count : Json
deriving Repr

/-- `FlightConnection.from_json(arrival_dict)`: looks up the camelCase
wire keys in source order. -/
def FlightConnection.from_json (arrival_dict : Json) : Except PyError FlightConnection := do
  let icao24 ← arrival_dict.getItem "icao24"
  let first_seen ← arrival_dict.getItem "firstSeen"
  let est_departure_airport ← arrival_dict.getItem "estDepartureAirport"
  let last_seen ← arrival_dict.getItem "lastSeen"
  let est_arrival_airport ← arrival_dict.getItem "estArrivalAirport"
  let callsign ← arrival_dict.getItem "callsign"
  let est_departure_airport_horiz_distance ← arrival_dict.getItem "estDepartureAirportHorizDistance"
  let est_departure_airport_vert_distance ← arrival_dict.getItem "estDepartureAirportVertDistance"
  let est_arrival_airport_horiz_distance ← arrival_dict.getItem "estArrivalAirportHorizDistance"
  let est_arrival_airport_vert_distance ← arrival_dict.getItem "estArrivalAirportVertDistance"
  let departure_airport_candidates_count ← arrival_dict.getItem "departureAirportCandidatesCount"
  let arrival_airport_candidates_count ← arrival_dict.getItem "arrivalAirportCandidatesCount"
  pure {
    icao24 := icao24
    first_seen := first_seen
    est_departure_airport := est_departure_airport
    last_seen := last_seen
    est_arrival_airport := est_arrival_airport
    callsign := callsign
    est_departure_airport_horiz_distance := est_departure_airport_horiz_distance
    est_departure_airport_vert_distance := est_departure_airport_vert_distance
    est_arrival_airport_horiz_distance := est_arrival_airport_horiz_distance
    est_arrival_airport_vert_distance := est_arrival_airport_vert_distance
    departure_airport_candidates_count := departure_airport_candidates_count
    arrival_airport_candidates_count := arrival_airport_candidates_count
  }

/-- `BoundingBox` of `models.py`: four WGS84 bounds (coordinates as exact
rationals). -/
structure BoundingBox where
  lamin : Rat
  lamax : Rat
  lomin : Rat
  lomax : Rat
deriving Repr

/-- `BoundingBox._validate_lat`. -/
def BoundingBox._validate_lat (lat : Rat) : Except PyError Rat :=
  if lat < -90 ∨ lat > 90 then
    .error (.valueError "Invalid latitude. Must be in [-90, 90]")
  else
    .ok lat

/-- `BoundingBox._validate_lon`. -/
def BoundingBox._validate_lon (lon : Rat) : Except PyError Rat :=
  if lon < -180 ∨ lon > 180 then
    .error (.valueError "Invalid longitude. Must be in [-180, 180]")
  else
    .ok lon

/-- `BoundingBox.__init__`: validates the four bounds in source order
(`lamin`, `lamax`, `lomin`, `lomax`), raising `ValueError` at the first
out-of-range value. -/
def BoundingBox.init (lamin lamax lomin lomax : Rat) : Except PyError BoundingBox := do
  let lamin ← BoundingBox._validate_lat lamin
  let lamax ← BoundingBox._validate_lat lamax
  let lomin ← BoundingBox._validate_lon lomin
  let lomax ← BoundingBox._validate_lon lomax
  pure { lamin := lamin, lamax := lamax, lomin := lomin, lomax := lomax }

/-- `BoundingBox.to_json`. -/
def BoundingBox.to_json (b : BoundingBox) : List (String × Json) :=
  [("lamin", .num b.lamin), ("lamax", .num b.lamax),
   ("lomin", .num b.lomin), ("lomax", .num b.lomax)]

/-- `Position` of `models.py`; raw field values, no coercion. -/
structure Position where
  longitude : Json
  latitude : Json
  altitude : Json
  reasonable : Json
deriving Repr

/-- `Position.from_json(position_dict)`. -/
def Position.from_json (position_dict : Json) : Except PyError Position := do
  let longitude ← position_dict.getItem "longitude"
  let latitude ← position_dict.getItem "latitude"
  let altitude ← position_dict.getItem "altitude"
  let reasonable ← position_dict.getItem "reasonable"
  pure { longitude := longitude, latitude := latitude,
         altitude := altitude, reasonable := reasonable }

/-- `Airport` of `models.py`: raw scalar fields plus the nested
`Position`. -/
structure Airport where
  icao : Json
  iata : Json
  name : Json
  city : Json
  type : Json
  position : Position
  continent : Json
  country : Json
  region : Json
  municipality : Json
  gpsCode : Json
  homepage : Json
  wikipedia : Json
deriving Repr

/-- `Airport.from_json(airport_dict)`: keyword arguments are evaluated in
source order, with `position=Position.from_json(airport_dict["position"])`
nested. -/
def Airport.from_json (airport_dict : Json) : Except PyError Airport := do
  let icao ← airport_dict.getItem "icao"
  let iata ← airport_dict.getItem "iata"
  let name ← airport_dict.getItem "name"
  let city ← airport_dict.getItem "city"
  let type ← airport_dict.getItem "type"
  let positionVal ← airport_dict.getItem "position"
  let position ← Position.from_json positionVal
  let continent ← airport_dict.getItem "continent"
  let country ← airport_dict.getItem "country"
  let region ← airport_dict.getItem "region"
  let municipality ← airport_dict.getItem "municipality"
  let gpsCode ← airport_dict.getItem "gpsCode"
  let homepage ← airport_dict.getItem "homepage"
  let wikipedia ← airport_dict.getItem "wikipedia"
  pure {
    icao := icao
    iata := iata
    name := name
    city := city
    type := type
    position := position
    continent := continent
    country := country
    region := region
    municipality := municipality
    gpsCode := gpsCode
    homepage := homepage
    wikipedia := wikipedia
  }

/-- A `datetime.datetime` calendar timestamp, modelled by the integer
epoch-seconds value that `int(timestamp.timestamp())` computes for it
(sub-second fractions, dropped by `int(...)`, are irrelevant to the
verified claims). -/
structure Datetime where
  epochSeconds : Int
deriving Repr

/-- `datetime.timestamp()` followed by `int(...)`. -/
def Datetime.timestamp (d : Datetime) : Int := d.epochSeconds

/-- The `Timestamp` type variable of `opensky_network.py`: either an
integer of epoch seconds or a `datetime`. -/
inductive Timestamp where
  | int (i : Int)
  | datetime (d : Datetime)
deriving Repr

/-- The integer epoch-seconds equivalent of a `Timestamp` argument: a
`datetime` is converted with `int(timestamp.timestamp())`, an integer is
kept unchanged (this is exactly the `isinstance(x, datetime)` conversion
performed by `get_states` and `_prepare_flight_connection_parameters`). -/
def Timestamp.epoch : Timestamp → Int
  | .int i => i
  | .datetime d => d.timestamp

namespace OpenskyNetworkClient

/-- `self._url_states`. -/
def _url_states : String := "api/states/all/"

/-- `self._url_flights_arrival`. -/
def _url_flights_arrival : String := "api/flights/arrival/"

/-- `self._url_flights_departure`. -/
def _url_flights_departure : String := "api/flights/departure/"

/-- Modelled from the spec: the URL of the airport-metadata resource is
absent from the sources together with `get_airport` itself; only the
constant's existence matters to the claims, not its value. -/
def _url_airports : String := "api/airports/"

/-- `OpenskyNetworkClient.get_states(timestamp, icao24, bbox)`: converts a
`datetime` timestamp to integer epoch seconds, builds the query-parameter
dict `time`, `icao24?`, `lamin/lamax/lomin/lomax?` (insertion order of the
`update` calls) and performs a typed `GET` with result model `States`. -/
def get_states (request_handler : RequestHandler) (timestamp : Timestamp)
    (icao24 : Option Json) (bbox : Option BoundingBox) :
    Except PyError (PyValue States) × List TransportCall :=
  let time : Int :=
    match timestamp with
    | .datetime d => d.timestamp
    | .int i => i
  let params : List (String × Json) := [("time", Json.num (time : Rat))]
  let params := params ++
    (match icao24 with
     | some v => [("icao24", v)]
     | none => [])
  let params := params ++
    (match bbox with
     | some b => b.to_json
     | none => [])
  perform_request request_handler "GET" _url_states (some params) none false
    (some States.from_json)

/-- `OpenskyNetworkClient._prepare_flight_connection_parameters`: converts
`datetime` bounds to integer epoch seconds and returns the dict
`airport`, `begin`, `end`. -/
def _prepare_flight_connection_parameters (airport : String)
    (begin_ end_ : Timestamp) : List (String × Json) :=
  let begin_ : Int :=
    match begin_ with
    | .datetime d => d.timestamp
    | .int i => i
  let end_ : Int :=
    match end_ with
    | .datetime d => d.timestamp
    | .int i => i
  [("airport", .str airport), ("begin", .num (begin_ : Rat)),
   ("end", .num (end_ : Rat))]

/-- `OpenskyNetworkClient.get_flight_arrivals(airport, begin, end)`:
typed `GET` with `many=True` and result model `FlightConnection`. -/
def get_flight_arrivals (request_handler : RequestHandler) (airport : String)
    (begin_ end_ : Timestamp) :
    Except PyError (PyValue FlightConnection) × List TransportCall :=
  let params := _prepare_flight_connection_parameters airport begin_ end_
  perform_request request_handler "GET" _url_flights_arrival (some params) none true
    (some FlightConnection.from_json)

/-- `OpenskyNetworkClient.get_flight_departures(airport, begin, end)`:
typed `GET` with `many=True` and result model `FlightConnection`. -/
def get_flight_departures (request_handler : RequestHandler) (airport : String)
    (begin_ end_ : Timestamp) :
    Except PyError (PyValue FlightConnection) × List TransportCall :=
  let params := _prepare_flight_connection_parameters airport begin_ end_
  perform_request request_handler "GET" _url_flights_departure (some params) none true
    (some FlightConnection.from_json)

/-- Modelled from the spec: `get_airport(icao)` is missing from the
sources (only the tests call it).  Per the spec, "get_airport(icao):
query parameter icao.  Returns one Airport object (with nested Position)",
so it sends a typed `GET` with the single query parameter `icao` and
result model `Airport` (`many=False`, like every single-object
operation). -/
def get_airport (request_handler : RequestHandler) (icao : String) :
    Except PyError (PyValue Airport) × List TransportCall :=
  perform_request request_handler "GET" _url_airports
    (some [("icao", Json.str icao)]) none false (some Airport.from_json)

end OpenskyNetworkClient

/-! ### Concrete transports and fixtures used by the witnesses -/

/-- The outcome is not a raised `APIError` (it may be any other value or
exception). -/
def NoApiError {β : Type} (x : Except PyError β) : Prop :=
  ∀ s c, x ≠ .error (.apiError s c)

/-- A concrete well-formed 17-element state-vector list (the first sample
row of the test fixture `make_states`, with the enum field as its wire
value `0`). -/
def sampleStateFields : List Json :=
  [.str "3c6444", .str "DLH9LF ", .str "Germany", .num 1458564120, .num 1458564120,
   .num (61546/10000 : Rat), .num (501964/10000 : Rat), .num (96393/10 : Rat),
   .bool false, .num (23288/100 : Rat), .num (9826/100 : Rat), .num (455/100 : Rat),
   .null, .num (954786/100 : Rat), .str "1000", .bool false, .num 0]

/-- The second sample row of the test fixture `make_states`. -/
def sampleStateFields2 : List Json :=
  [.str "4b1806", .str "DLH9LF ", .str "Greece", .num 1458564120, .num 1458564120,
   .num (61546/10000 : Rat), .num (501964/10000 : Rat), .num (96393/10 : Rat),
   .bool false, .num (23288/100 : Rat), .num (9826/100 : Rat), .num (455/100 : Rat),
   .null, .num (954786/100 : Rat), .str "1000", .bool false, .num 0]

/-- A transport whose every response is `200` with body `"[]"` parsing to
the empty JSON list. -/
def emptyListHandler : RequestHandler := fun _c =>
  { status_code := 200, content := "[]", json := Json.arr [] }

/-- One arrival record of the test fixture `make_flight_connection`, as
wire JSON. -/
def sampleFlightJson (icao : String) : Json :=
  .obj [("icao24", .str icao), ("firstSeen", .num 1517220729),
        ("estDepartureAirport", .null), ("lastSeen", .num 1517230737),
        ("estArrivalAirport", .str "EDDF"), ("callsign", .str "MSR785 "),
        ("estDepartureAirportHorizDistance", .null),
        ("estDepartureAirportVertDistance", .null),
        ("estArrivalAirportHorizDistance", .num 1593),
        ("estArrivalAirportVertDistance", .num 95),
        ("departureAirportCandidatesCount", .num 0),
        ("arrivalAirportCandidatesCount", .num 2)]

/-- The typed record that `FlightConnection.from_json` produces for
`sampleFlightJson`. -/
def sampleFlight (icao : String) : FlightConnection :=
  { icao24 := .str icao, first_seen := .num 1517220729,
    est_departure_airport := .null, last_seen := .num 1517230737,
    est_arrival_airport := .str "EDDF", callsign := .str "MSR785 ",
    est_departure_airport_horiz_distance := .null,
    est_departure_airport_vert_distance := .null,
    est_arrival_airport_horiz_distance := .num 1593,
    est_arrival_airport_vert_distance := .num 95,
    departure_airport_candidates_count := .num 0,
    arrival_airport_candidates_count := .num 2 }

/-- A transport whose every response is `200` with a two-element arrival
list body. -/
def twoFlightsHandler : RequestHandler := fun _c =>
  { status_code := 200, content := "[two-flights]",
    json := Json.arr [sampleFlightJson "0101be", sampleFlightJson "0101bf"] }

/-- A transport whose every response is `200` with body `"\x7b\x7d"` parsing to
the empty JSON object. -/
def emptyObjHandler : RequestHandler := fun _c =>
  { status_code := 200, content := "\x7b\x7d", json := Json.obj [] }

/-- A transport whose every response is `404 Not Found`. -/
def notFoundHandler : RequestHandler := fun _c =>
  { status_code := 404, content := "Not Found", json := Json.null }

/-- A transport whose every response is `200` with a null JSON body. -/
def okNullHandler : RequestHandler := fun _c =>
  { status_code := 200, content := "null", json := Json.null }

/-- The nested position mapping of the test fixture `make_airport`. -/
def samplePositionJson : Json :=
  .obj [("longitude", .num (374146/10000 : Rat)),
        ("latitude", .num (55972599/1000000 : Rat)),
        ("altitude", .num (1895856/10000 : Rat)),
        ("reasonable", .bool true)]

/-- The airport mapping of the test fixture `make_airport`. -/
def sampleAirportJson : Json :=
  .obj [("icao", .str "UUEE"), ("iata", .str "SVO"),
        ("name", .str "Sheremetyevo International Airport"), ("city", .null),
        ("type", .null), ("position", samplePositionJson),
        ("continent", .str "EU"), ("country", .str "RU"), ("region", .str "RU-MOS"),
        ("municipality", .str "Moscow"), ("gpsCode", .str "UUEE"),
        ("homepage", .str "http://www.svo.aero/en/"),
        ("wikipedia", .str "http://en.wikipedia.org/wiki/Sheremetyevo_International_Airport")]

/-- The typed record `Airport.from_json` produces for `sampleAirportJson`. -/
def sampleAirport : Airport :=
  { icao := .str "UUEE", iata := .str "SVO",
    name := .str "Sheremetyevo International Airport", city := .null,
    type := .null,
    position := { longitude := .num (374146/10000 : Rat),
                  latitude := .num (55972599/1000000 : Rat),
                  altitude := .num (1895856/10000 : Rat),
                  reasonable := .bool true },
    continent := .str "EU", country := .str "RU", region := .str "RU-MOS",
    municipality := .str "Moscow", gpsCode := .str "UUEE",
    homepage := .str "http://www.svo.aero/en/",
    wikipedia := .str "http://en.wikipedia.org/wiki/Sheremetyevo_International_Airport" }

/-- A transport whose every response is `200` with the sample airport
body. -/
def airportHandler : RequestHandler := fun _c =>
  { status_code := 200, content := "\x7bairport\x7d", json := sampleAirportJson }

/-! ### General helper lemmas -/

theorem bind_eq_ok_iff {ε α β : Type} (x : Except ε α) (f : α → Except ε β) (b : β) :
    (x >>= f) = .ok b ↔ ∃ a, x = .ok a ∧ f a = .ok b := by
  cases x <;> simp [Bind.bind, Except.bind]

theorem mapM_ok_length {β : Type} (f : Json → Except PyError β) :
    ∀ (l : List Json) (l2 : List β), l.mapM f = .ok l2 → l2.length = l.length := by
  intro l
  induction l with
  | nil =>
      intro l2 h
      rw [show ([].mapM f : Except PyError (List β)) = .ok [] from rfl] at h
      rw [← Except.ok.inj h]
      rfl
  | cons a l ih =>
      intro l2 h
      rw [List.mapM_cons, bind_eq_ok_iff] at h
      obtain ⟨b, _, h⟩ := h
      rw [bind_eq_ok_iff] at h
      obtain ⟨bs, hbs, h⟩ := h
      rw [show (pure (b :: bs) : Except PyError (List β)) = .ok (b :: bs) from rfl] at h
      rw [← Except.ok.inj h]
      simp [ih bs hbs]

theorem noApiError_ok {β : Type} (b : β) : NoApiError (.ok b : Except PyError β) := by
  intro s c h
  exact Except.noConfusion h

theorem noApiError_error {β : Type} (e : PyError) (he : ∀ s c, e ≠ .apiError s c) :
    NoApiError (.error e : Except PyError β) := by
  intro s c h
  exact he s c (Except.error.inj h)

theorem noApiError_typeError {β : Type} (m : String) :
    NoApiError (.error (.typeError m) : Except PyError β) :=
  noApiError_error _ (fun _ _ h => PyError.noConfusion h)

theorem noApiError_keyError {β : Type} (k : String) :
    NoApiError (.error (.keyError k) : Except PyError β) :=
  noApiError_error _ (fun _ _ h => PyError.noConfusion h)

theorem noApiError_bind {β γ : Type} (x : Except PyError β) (f : β → Except PyError γ)
    (hx : NoApiError x) (hf : ∀ b, NoApiError (f b)) : NoApiError (x >>= f) := by
  cases x with
  | error e =>
      rw [show ((Except.error e : Except PyError β) >>= f) = .error e from rfl]
      intro s c h
      exact hx s c (by rw [Except.error.inj h])
  | ok b =>
      rw [show ((Except.ok b : Except PyError β) >>= f) = f b from rfl]
      exact hf b

theorem noApiError_mapM {β : Type} (f : Json → Except PyError β) (l : List Json)
    (hf : ∀ j, NoApiError (f j)) : NoApiError (l.mapM f) := by
  induction l with
  | nil => exact noApiError_ok []
  | cons a l ih =>
      rw [List.mapM_cons]
      exact noApiError_bind _ _ (hf a) fun b =>
        noApiError_bind _ _ ih fun bs => noApiError_ok _

theorem noApiError_getItem (j : Json) (k : String) : NoApiError (j.getItem k) := by
  cases j with
  | obj members =>
      simp only [Json.getItem]
      cases members.lookup k with
      | some v => exact noApiError_ok v
      | none => exact noApiError_keyError k
  | null => exact noApiError_typeError _
  | bool b => exact noApiError_typeError _
  | num q => exact noApiError_typeError _
  | str s => exact noApiError_typeError _
  | arr elements => exact noApiError_typeError _

theorem noApiError_pyIter (j : Json) : NoApiError j.pyIter := by
  cases j with
  | arr elements => exact noApiError_ok _
  | obj members => exact noApiError_ok _
  | str s => exact noApiError_ok _
  | null => exact noApiError_typeError _
  | bool b => exact noApiError_typeError _
  | num q => exact noApiError_typeError _

theorem noApiError_statevector_from_json (j : Json) :
    NoApiError (StateVector.from_json j) := by
  unfold StateVector.from_json
  refine noApiError_bind _ _ (noApiError_pyIter j) fun args => ?_
  by_cases h : 17 ≤ args.length
  · rw [if_pos h]
    exact noApiError_ok _
  · rw [if_neg h]
    exact noApiError_typeError _

theorem noApiError_states_init (time : Json) (states : List StateVector) :
    NoApiError (States.init time states) := by
  cases time with
  | num q =>
      show NoApiError (if q < fromtimestamp_min ∨ q > fromtimestamp_max then
          (.error (.valueError "year is out of range") : Except PyError States)
        else .ok { time_in_sec := q, states := states })
      by_cases hq : q < fromtimestamp_min ∨ q > fromtimestamp_max
      · rw [if_pos hq]
        exact noApiError_error _ (fun _ _ hh => PyError.noConfusion hh)
      · rw [if_neg hq]
        exact noApiError_ok _
  | null => exact noApiError_typeError _
  | bool b => exact noApiError_typeError _
  | str s => exact noApiError_typeError _
  | arr elements => exact noApiError_typeError _
  | obj members => exact noApiError_typeError _

theorem noApiError_states_from_json (j : Json) : NoApiError (States.from_json j) := by
  unfold States.from_json
  refine noApiError_bind _ _ (noApiError_getItem _ _) fun time => ?_
  refine noApiError_bind _ _ (noApiError_getItem _ _) fun statesVal => ?_
  refine noApiError_bind _ _ (noApiError_pyIter _) fun stateVectorLists => ?_
  refine noApiError_bind _ _
    (noApiError_mapM _ _ noApiError_statevector_from_json) fun states => ?_
  exact noApiError_states_init time states

theorem noApiError_flightconnection_from_json (j : Json) :
    NoApiError (FlightConnection.from_json j) := by
  unfold FlightConnection.from_json
  refine noApiError_bind _ _ (noApiError_getItem _ _) fun _ => ?_
  refine noApiError_bind _ _ (noApiError_getItem _ _) fun _ => ?_
  refine noApiError_bind _ _ (noApiError_getItem _ _) fun _ => ?_
  refine noApiError_bind _ _ (noApiError_getItem _ _) fun _ => ?_
  refine noApiError_bind _ _ (noApiError_getItem _ _) fun _ => ?_
  refine noApiError_bind _ _ (noApiError_getItem _ _) fun _ => ?_
  refine noApiError_bind _ _ (noApiError_getItem _ _) fun _ => ?_
  refine noApiError_bind _ _ (noApiError_getItem _ _) fun _ => ?_
  refine noApiError_bind _ _ (noApiError_getItem _ _) fun _ => ?_
  refine noApiError_bind _ _ (noApiError_getItem _ _) fun _ => ?_
  refine noApiError_bind _ _ (noApiError_getItem _ _) fun _ => ?_
  refine noApiError_bind _ _ (noApiError_getItem _ _) fun _ => ?_
  exact noApiError_ok _

theorem noApiError_position_from_json (j : Json) :
    NoApiError (Position.from_json j) := by
  unfold Position.from_json
  refine noApiError_bind _ _ (noApiError_getItem _ _) fun _ => ?_
  refine noApiError_bind _ _ (noApiError_getItem _ _) fun _ => ?_
  refine noApiError_bind _ _ (noApiError_getItem _ _) fun _ => ?_
  refine noApiError_bind _ _ (noApiError_getItem _ _) fun _ => ?_
  exact noApiError_ok _

theorem noApiError_airport_from_json (j : Json) :
    NoApiError (Airport.from_json j) := by
  unfold Airport.from_json
  refine noApiError_bind _ _ (noApiError_getItem _ _) fun _ => ?_
  refine noApiError_bind _ _ (noApiError_getItem _ _) fun _ => ?_
  refine noApiError_bind _ _ (noApiError_getItem _ _) fun _ => ?_
  refine noApiError_bind _ _ (noApiError_getItem _ _) fun _ => ?_
  refine noApiError_bind _ _ (noApiError_getItem _ _) fun _ => ?_
  refine noApiError_bind _ _ (noApiError_getItem _ _) fun positionVal => ?_
  refine noApiError_bind _ _ (noApiError_position_from_json positionVal) fun _ => ?_
  refine noApiError_bind _ _ (noApiError_getItem _ _) fun _ => ?_
  refine noApiError_bind _ _ (noApiError_getItem _ _) fun _ => ?_
  refine noApiError_bind _ _ (noApiError_getItem _ _) fun _ => ?_
  refine noApiError_bind _ _ (noApiError_getItem _ _) fun _ => ?_
  refine noApiError_bind _ _ (noApiError_getItem _ _) fun _ => ?_
  refine noApiError_bind _ _ (noApiError_getItem _ _) fun _ => ?_
  refine noApiError_bind _ _ (noApiError_getItem _ _) fun _ => ?_
  exact noApiError_ok _

/-! ### Evaluation equations for the response pipeline -/

theorem finalizeResult_none {α : Type} (many : Bool) :
    finalizeResult many (.none : PyValue α) = .ok .none := by
  unfold finalizeResult
  rw [if_neg]
  intro h
  simp [PyValue.truthy] at h

theorem finalizeResult_json_falsy {α : Type} (many : Bool) (j : Json)
    (ht : j.truthy = false) :
    finalizeResult many (.json j : PyValue α) = .ok (.json j) := by
  unfold finalizeResult
  rw [if_neg]
  intro h
  rw [show (PyValue.json j : PyValue α).truthy = j.truthy from rfl, ht] at h
  exact Bool.false_ne_true h.2

theorem handleResponse_apiError {α : Type} (response : Response) (many : Bool)
    (rc : Option (Json → Except PyError α))
    (hbad : ¬(response.status_code = 200 ∨ response.status_code = 201 ∨
              response.status_code = 204)) :
    handleResponse response many rc =
      .error (.apiError response.status_code response.content) := by
  unfold handleResponse
  rw [if_neg hbad]

theorem handleResponse_good_empty {α : Type} (response : Response) (many : Bool)
    (rc : Option (Json → Except PyError α))
    (hgood : response.status_code = 200 ∨ response.status_code = 201 ∨
             response.status_code = 204)
    (hc : ¬ response.content.length > 0) :
    handleResponse response many rc = .ok .none := by
  unfold handleResponse
  rw [if_pos hgood]
  dsimp only
  rw [if_neg hc]
  cases rc with
  | none => exact finalizeResult_none many
  | some d => exact finalizeResult_none many

theorem handleResponse_no_rc {α : Type} (response : Response) (many : Bool)
    (hgood : response.status_code = 200 ∨ response.status_code = 201 ∨
             response.status_code = 204)
    (hc : response.content.length > 0) :
    handleResponse response many (none : Option (Json → Except PyError α)) =
      finalizeResult many (.json response.json) := by
  unfold handleResponse
  rw [if_pos hgood]
  dsimp only
  rw [if_pos hc]

theorem handleResponse_falsy {α : Type} (response : Response) (many : Bool)
    (rc : Option (Json → Except PyError α))
    (hgood : response.status_code = 200 ∨ response.status_code = 201 ∨
             response.status_code = 204)
    (hc : response.content.length > 0)
    (ht : response.json.truthy = false) :
    handleResponse response many rc = .ok (.json response.json) := by
  unfold handleResponse
  rw [if_pos hgood]
  dsimp only
  rw [if_pos hc]
  cases rc with
  | none => exact finalizeResult_json_falsy many _ ht
  | some d =>
      dsimp only
      rw [if_neg (by rw [ht]; exact Bool.false_ne_true)]
      exact finalizeResult_json_falsy many _ ht

theorem handleResponse_many_deser {α : Type} (response : Response)
    (d : Json → Except PyError α)
    (hgood : response.status_code = 200 ∨ response.status_code = 201 ∨
             response.status_code = 204)
    (hc : response.content.length > 0)
    (ht : response.json.truthy = true) :
    handleResponse response true (some d) =
      match response.json.pyIter with
      | .error e => .error e
      | .ok elements =>
          match elements.mapM d with
          | .error e => .error e
          | .ok objects => .ok (.objList objects) := by
  unfold handleResponse
  rw [if_pos hgood]
  dsimp only
  rw [if_pos hc]
  dsimp only
  rw [if_pos ht, if_pos rfl]

theorem handleResponse_single_deser {α : Type} (response : Response)
    (d : Json → Except PyError α)
    (hgood : response.status_code = 200 ∨ response.status_code = 201 ∨
             response.status_code = 204)
    (hc : response.content.length > 0)
    (ht : response.json.truthy = true) :
    handleResponse response false (some d) =
      match d response.json with
      | .error e => .error e
      | .ok a => .ok (.obj a) := by
  unfold handleResponse
  rw [if_pos hgood]
  dsimp only
  rw [if_pos hc]
  dsimp only
  rw [if_pos ht, if_neg Bool.false_ne_true]

theorem finalizeResult_noApiError {α : Type} (many : Bool) (r : PyValue α) :
    NoApiError (finalizeResult many r) := by
  cases r with
  | none =>
      rw [finalizeResult_none]
      exact noApiError_ok _
  | json j =>
      cases ht : j.truthy with
      | false =>
          rw [finalizeResult_json_falsy many j ht]
          exact noApiError_ok _
      | true =>
          cases many with
          | false =>
              unfold finalizeResult
              rw [if_neg (fun h => Bool.false_ne_true h.1)]
              exact noApiError_ok _
          | true =>
              unfold finalizeResult
              rw [if_pos ⟨rfl, ht⟩]
              dsimp only
              cases hit : j.pyIter with
              | error e =>
                  intro s c h
                  exact noApiError_pyIter j s c
                    (by rw [hit, Except.error.inj h])
              | ok elements => exact noApiError_ok _
  | obj a =>
      unfold finalizeResult
      split
      · exact noApiError_ok _
      · exact noApiError_ok _
  | objList objects =>
      unfold finalizeResult
      split
      · exact noApiError_ok _
      · exact noApiError_ok _

theorem handleResponse_noApiError {α : Type} (response : Response) (many : Bool)
    (rc : Option (Json → Except PyError α))
    (hgood : response.status_code = 200 ∨ response.status_code = 201 ∨
             response.status_code = 204)
    (hrc : ∀ d, rc = some d → ∀ j, NoApiError (d j)) :
    NoApiError (handleResponse response many rc) := by
  by_cases hc : response.content.length > 0
  · cases rc with
    | none =>
        rw [handleResponse_no_rc response many hgood hc]
        exact finalizeResult_noApiError many _
    | some d =>
        cases ht : response.json.truthy with
        | false =>
            rw [handleResponse_falsy response many (some d) hgood hc ht]
            exact noApiError_ok _
        | true =>
            cases many with
            | true =>
                rw [handleResponse_many_deser response d hgood hc ht]
                cases hit : response.json.pyIter with
                | error e =>
                    intro s c h
                    exact noApiError_pyIter response.json s c
                      (by rw [hit, Except.error.inj h])
                | ok elements =>
                    dsimp only
                    cases hm : elements.mapM d with
                    | error e =>
                        intro s c h
                        exact noApiError_mapM d elements (hrc d rfl) s c
                          (by rw [hm, Except.error.inj h])
                    | ok objects => exact noApiError_ok _
            | false =>
                rw [handleResponse_single_deser response d hgood hc ht]
                cases hd : d response.json with
                | error e =>
                    intro s c h
                    exact hrc d rfl response.json s c
                      (by rw [hd, Except.error.inj h])
                | ok a => exact noApiError_ok _
  · rw [handleResponse_good_empty response many rc hgood hc]
    exact noApiError_ok _

theorem processRequest_fst_supported {α : Type} (request_handler : RequestHandler)
    (resp : Response) (hresp : ∀ c, request_handler c = resp)
    (method path : String) (extra_params : Option (List (String × Json)))
    (json : Option Json) (many : Bool) (rc : Option (Json → Except PyError α))
    (hm : method = "GET" ∨ method = "POST" ∨ method = "DELETE" ∨ method = "PUT") :
    (processRequest request_handler method path extra_params json many rc).1 =
      handleResponse resp many rc := by
  rcases hm with h | h | h | h <;> subst h <;>
    simp [processRequest, dispatch, hresp]

theorem ok_bind {ε α β : Type} (a : α) (f : α → Except ε β) :
    ((Except.ok a : Except ε α) >>= f) = f a := rfl

theorem error_bind {ε α β : Type} (e : ε) (f : α → Except ε β) :
    ((Except.error e : Except ε α) >>= f) = .error e := rfl

/-! ### Evaluation lemmas for the models -/

theorem statevector_from_json_arr_ok (l : List Json) (h17 : 17 ≤ l.length) :
    StateVector.from_json (Json.arr l) = .ok (StateVector.fromArgs l) := by
  show (if 17 ≤ l.length then (.ok (StateVector.fromArgs l) : Except PyError StateVector)
        else .error (.typeError "StateVector() missing required positional arguments")) =
      .ok (StateVector.fromArgs l)
  rw [if_pos h17]

theorem statevector_from_json_arr_short (l : List Json) (h17 : l.length < 17) :
    StateVector.from_json (Json.arr l) =
      .error (.typeError "StateVector() missing required positional arguments") := by
  show (if 17 ≤ l.length then (.ok (StateVector.fromArgs l) : Except PyError StateVector)
        else .error (.typeError "StateVector() missing required positional arguments")) =
      .error (.typeError "StateVector() missing required positional arguments")
  rw [if_neg (by omega)]

theorem mapM_statevector_from_json (ls : List (List Json))
    (h : ∀ l ∈ ls, 17 ≤ l.length) :
    (ls.map Json.arr).mapM StateVector.from_json = .ok (ls.map StateVector.fromArgs) := by
  induction ls with
  | nil => rfl
  | cons l ls ih =>
      rw [List.map_cons, List.map_cons, List.mapM_cons, bind_eq_ok_iff]
      refine ⟨StateVector.fromArgs l,
        statevector_from_json_arr_ok l (h l (List.mem_cons_self l ls)), ?_⟩
      rw [bind_eq_ok_iff]
      exact ⟨ls.map StateVector.fromArgs,
        ih (fun l2 hl2 => h l2 (List.mem_cons_of_mem l hl2)), rfl⟩

theorem states_from_json_eval (t : Rat) (ls : List (List Json))
    (h : ∀ l ∈ ls, 17 ≤ l.length)
    (ht : ¬(t < fromtimestamp_min ∨ t > fromtimestamp_max)) :
    States.from_json (Json.obj [("time", Json.num t),
        ("states", Json.arr (ls.map Json.arr))]) =
      .ok { time_in_sec := t, states := ls.map StateVector.fromArgs } := by
  show ((ls.map Json.arr).mapM StateVector.from_json >>= fun states =>
      States.init (.num t) states) = _
  rw [bind_eq_ok_iff]
  refine ⟨ls.map StateVector.fromArgs, mapM_statevector_from_json ls h, ?_⟩
  show (if t < fromtimestamp_min ∨ t > fromtimestamp_max then
      (.error (.valueError "year is out of range") : Except PyError States)
    else .ok { time_in_sec := t, states := ls.map StateVector.fromArgs }) = _
  rw [if_neg ht]

theorem _validate_lat_out (lat : Rat) (c : lat < -90 ∨ lat > 90) :
    BoundingBox._validate_lat lat =
      .error (.valueError "Invalid latitude. Must be in [-90, 90]") := by
  unfold BoundingBox._validate_lat
  rw [if_pos c]

theorem _validate_lat_in (lat : Rat) (c : ¬(lat < -90 ∨ lat > 90)) :
    BoundingBox._validate_lat lat = .ok lat := by
  unfold BoundingBox._validate_lat
  rw [if_neg c]

theorem _validate_lon_out (lon : Rat) (c : lon < -180 ∨ lon > 180) :
    BoundingBox._validate_lon lon =
      .error (.valueError "Invalid longitude. Must be in [-180, 180]") := by
  unfold BoundingBox._validate_lon
  rw [if_pos c]

theorem _validate_lon_in (lon : Rat) (c : ¬(lon < -180 ∨ lon > 180)) :
    BoundingBox._validate_lon lon = .ok lon := by
  unfold BoundingBox._validate_lon
  rw [if_neg c]

/-! ### The claims -/

/-- C2: for every call to `process_request` with a method string outside
GET, POST, PUT, DELETE, no transport call is made (the recorded call list
is empty, whatever the handler) and the call fails with the
unsupported-method error (`NotImplementedError` in the source), which is
distinct from every `APIError`. -/
theorem process_request_unsupported_method {α : Type}
    (request_handler : RequestHandler) (method path : String)
    (extra_params : Option (List (String × Json))) (json : Option Json)
    (many : Bool) (response_class : Option (Json → Except PyError α))
    (h : method ≠ "GET" ∧ method ≠ "POST" ∧ method ≠ "DELETE" ∧ method ≠ "PUT") :
    processRequest request_handler method path extra_params json many response_class =
      (.error (.notImplementedError ("Method " ++ method ++ " is not implemented")), []) ∧
    ∀ s c, PyError.notImplementedError ("Method " ++ method ++ " is not implemented") ≠
      .apiError s c := by
  obtain ⟨h1, h2, h3, h4⟩ := h
  constructor
  · unfold processRequest dispatch
    rw [if_neg h1, if_neg h2, if_neg h3, if_neg h4]
  · intro s c hc
    exact PyError.noConfusion hc

/-- Witness for C2 at the concrete method `"PATCH"`. -/
theorem process_request_unsupported_method_witness :
    processRequest (fun _c => { status_code := 200, content := "", json := Json.null })
        "PATCH" "path" none none false (none : Option (Json → Except PyError States)) =
      (.error (.notImplementedError ("Method " ++ "PATCH" ++ " is not implemented")), []) ∧
    ∀ s c, PyError.notImplementedError ("Method " ++ "PATCH" ++ " is not implemented") ≠
      .apiError s c :=
  process_request_unsupported_method _ "PATCH" "path" none none false none
    ⟨by decide, by decide, by decide, by decide⟩

/-- C5: `BoundingBox` construction fails with a `ValueError` whenever some
latitude bound is outside `[-90, 90]` or some longitude bound is outside
`[-180, 180]`, and succeeds (storing the bounds unchanged) whenever all
four bounds are in range, the exact boundaries included. -/
theorem boundingbox_validation (lamin lamax lomin lomax : Rat) :
    ((lamin < -90 ∨ lamin > 90 ∨ lamax < -90 ∨ lamax > 90 ∨
      lomin < -180 ∨ lomin > 180 ∨ lomax < -180 ∨ lomax > 180) →
       ∃ msg, BoundingBox.init lamin lamax lomin lomax = .error (.valueError msg)) ∧
    ((-90 ≤ lamin ∧ lamin ≤ 90 ∧ -90 ≤ lamax ∧ lamax ≤ 90 ∧
      -180 ≤ lomin ∧ lomin ≤ 180 ∧ -180 ≤ lomax ∧ lomax ≤ 180) →
       BoundingBox.init lamin lamax lomin lomax =
         .ok { lamin := lamin, lamax := lamax, lomin := lomin, lomax := lomax }) := by
  constructor
  · intro h
    by_cases c1 : lamin < -90 ∨ lamin > 90
    · exact ⟨_, by unfold BoundingBox.init; rw [_validate_lat_out lamin c1, error_bind]⟩
    · by_cases c2 : lamax < -90 ∨ lamax > 90
      · exact ⟨_, by
          unfold BoundingBox.init
          rw [_validate_lat_in lamin c1, ok_bind, _validate_lat_out lamax c2, error_bind]⟩
      · by_cases c3 : lomin < -180 ∨ lomin > 180
        · exact ⟨_, by
            unfold BoundingBox.init
            rw [_validate_lat_in lamin c1, ok_bind, _validate_lat_in lamax c2, ok_bind,
              _validate_lon_out lomin c3, error_bind]⟩
        · by_cases c4 : lomax < -180 ∨ lomax > 180
          · exact ⟨_, by
              unfold BoundingBox.init
              rw [_validate_lat_in lamin c1, ok_bind, _validate_lat_in lamax c2, ok_bind,
                _validate_lon_in lomin c3, ok_bind, _validate_lon_out lomax c4, error_bind]⟩
          · rcases h with h | h | h | h | h | h | h | h
            exacts [absurd (Or.inl h) c1, absurd (Or.inr h) c1,
              absurd (Or.inl h) c2, absurd (Or.inr h) c2,
              absurd (Or.inl h) c3, absurd (Or.inr h) c3,
              absurd (Or.inl h) c4, absurd (Or.inr h) c4]
  · intro h
    obtain ⟨h1, h2, h3, h4, h5, h6, h7, h8⟩ := h
    unfold BoundingBox.init
    rw [_validate_lat_in lamin (not_or.mpr ⟨not_lt.mpr h1, not_lt.mpr h2⟩), ok_bind,
      _validate_lat_in lamax (not_or.mpr ⟨not_lt.mpr h3, not_lt.mpr h4⟩), ok_bind,
      _validate_lon_in lomin (not_or.mpr ⟨not_lt.mpr h5, not_lt.mpr h6⟩), ok_bind,
      _validate_lon_in lomax (not_or.mpr ⟨not_lt.mpr h7, not_lt.mpr h8⟩), ok_bind]
    rfl

/-- Witness for C5: an out-of-range latitude (`91`) fails, and the exact
boundary box `(-90, 90, -180, 180)` succeeds. -/
theorem boundingbox_validation_witness :
    (∃ msg, BoundingBox.init 91 0 0 0 = .error (.valueError msg)) ∧
    BoundingBox.init (-90) 90 (-180) 180 =
      .ok { lamin := -90, lamax := 90, lomin := -180, lomax := 180 } :=
  ⟨(boundingbox_validation 91 0 0 0).1 (by norm_num),
   (boundingbox_validation (-90) 90 (-180) 180).2 (by norm_num)⟩

/-- C9: a successfully constructed `BoundingBox` serializes with `to_json`
to exactly the four-key mapping `lamin`, `lamax`, `lomin`, `lomax` holding
the original construction values unchanged. -/
theorem boundingbox_to_json_roundtrip (lamin lamax lomin lomax : Rat) (b : BoundingBox)
    (h : BoundingBox.init lamin lamax lomin lomax = .ok b) :
    b.to_json = [("lamin", Json.num lamin), ("lamax", Json.num lamax),
                 ("lomin", Json.num lomin), ("lomax", Json.num lomax)] := by
  unfold BoundingBox.init at h
  by_cases c1 : lamin < -90 ∨ lamin > 90
  · rw [_validate_lat_out lamin c1, error_bind] at h
    exact absurd h (fun hh => Except.noConfusion hh)
  · rw [_validate_lat_in lamin c1, ok_bind] at h
    by_cases c2 : lamax < -90 ∨ lamax > 90
    · rw [_validate_lat_out lamax c2, error_bind] at h
      exact absurd h (fun hh => Except.noConfusion hh)
    · rw [_validate_lat_in lamax c2, ok_bind] at h
      by_cases c3 : lomin < -180 ∨ lomin > 180
      · rw [_validate_lon_out lomin c3, error_bind] at h
        exact absurd h (fun hh => Except.noConfusion hh)
      · rw [_validate_lon_in lomin c3, ok_bind] at h
        by_cases c4 : lomax < -180 ∨ lomax > 180
        · rw [_validate_lon_out lomax c4, error_bind] at h
          exact absurd h (fun hh => Except.noConfusion hh)
        · rw [_validate_lon_in lomax c4, ok_bind] at h
          rw [← Except.ok.inj h]
          rfl

/-- Witness for C9 at the concrete box `(1, 2, 3, 4)`. -/
theorem boundingbox_to_json_roundtrip_witness :
    BoundingBox.to_json { lamin := 1, lamax := 2, lomin := 3, lomax := 4 } =
      [("lamin", Json.num 1), ("lamax", Json.num 2),
       ("lomin", Json.num 3), ("lomax", Json.num 4)] :=
  boundingbox_to_json_roundtrip 1 2 3 4
    { lamin := 1, lamax := 2, lomin := 3, lomax := 4 } (by rfl)

/-- C10: deserializing a `StateVector` from an ordered list requires at
least 17 elements - any shorter list fails with `TypeError` and no
partially-populated object is produced - while elements beyond the 17th
are accepted, stored separately in `_rest_args`, and leave every named
field equal to what the first 17 elements alone would produce. -/
theorem statevector_arity (l : List Json) :
    (l.length < 17 →
      StateVector.from_json (Json.arr l) =
        .error (.typeError "StateVector() missing required positional arguments")) ∧
    (∀ base extra, l = base ++ extra → base.length = 17 →
      StateVector.from_json (Json.arr l) = .ok (StateVector.fromArgs l) ∧
      (StateVector.fromArgs l)._rest_args = extra ∧
      ((StateVector.fromArgs l).icao24 = (StateVector.fromArgs base).icao24 ∧
       (StateVector.fromArgs l).callsign = (StateVector.fromArgs base).callsign ∧
       (StateVector.fromArgs l).origin_country = (StateVector.fromArgs base).origin_country ∧
       (StateVector.fromArgs l).time_position_in_sec = (StateVector.fromArgs base).time_position_in_sec ∧
       (StateVector.fromArgs l).last_contact_in_sec = (StateVector.fromArgs base).last_contact_in_sec ∧
       (StateVector.fromArgs l).longitude = (StateVector.fromArgs base).longitude ∧
       (StateVector.fromArgs l).latitude = (StateVector.fromArgs base).latitude ∧
       (StateVector.fromArgs l).baro_altitude_in_m = (StateVector.fromArgs base).baro_altitude_in_m ∧
       (StateVector.fromArgs l).on_ground = (StateVector.fromArgs base).on_ground ∧
       (StateVector.fromArgs l).velocity_in_m_per_sec = (StateVector.fromArgs base).velocity_in_m_per_sec ∧
       (StateVector.fromArgs l).true_track = (StateVector.fromArgs base).true_track ∧
       (StateVector.fromArgs l).vertical_rate_in_m_per_sec = (StateVector.fromArgs base).vertical_rate_in_m_per_sec ∧
       (StateVector.fromArgs l).sensors = (StateVector.fromArgs base).sensors ∧
       (StateVector.fromArgs l).geo_altitude_in_m = (StateVector.fromArgs base).geo_altitude_in_m ∧
       (StateVector.fromArgs l).squawk = (StateVector.fromArgs base).squawk ∧
       (StateVector.fromArgs l).spi = (StateVector.fromArgs base).spi ∧
       (StateVector.fromArgs l).position_source = (StateVector.fromArgs base).position_source)) := by
  constructor
  · exact statevector_from_json_arr_short l
  · intro base extra hl hb
    subst hl
    have h17 : 17 ≤ (base ++ extra).length := by
      rw [List.length_append, hb]
      omega
    refine ⟨statevector_from_json_arr_ok _ h17, ?_, ?_⟩
    · show (base ++ extra).drop 17 = extra
      rw [← hb]
      exact List.drop_left base extra
    · refine ⟨?_, ?_, ?_, ?_, ?_, ?_, ?_, ?_, ?_, ?_, ?_, ?_, ?_, ?_, ?_, ?_, ?_⟩ <;>
        exact List.getD_append _ _ _ _ (by omega)

/-- Witness for C10: a 1-element list fails, a 17+1-element list succeeds
with the extra element in `_rest_args`. -/
theorem statevector_arity_witness :
    StateVector.from_json (Json.arr [Json.null]) =
      .error (.typeError "StateVector() missing required positional arguments") ∧
    StateVector.from_json (Json.arr (sampleStateFields ++ [Json.str "extra"])) =
      .ok (StateVector.fromArgs (sampleStateFields ++ [Json.str "extra"])) ∧
    (StateVector.fromArgs (sampleStateFields ++ [Json.str "extra"]))._rest_args =
      [Json.str "extra"] := by
  have h1 := (statevector_arity [Json.null]).1 (by decide)
  have h2 := (statevector_arity (sampleStateFields ++ [Json.str "extra"])).2
    sampleStateFields [Json.str "extra"] rfl (by decide)
  exact ⟨h1, h2.1, h2.2.1⟩

/-- C7 (counterexample): at the out-of-range timestamp `t = 10^12`
(year 33658, beyond `datetime`'s year 9999), `States` deserialization
raises the `fromtimestamp` `ValueError` instead of yielding an object
with `time_in_sec == t`, refuting the claim as stated for every `t`. -/
theorem states_from_json_out_of_range_counterexample :
    States.from_json (Json.obj [("time", Json.num 1000000000000),
        ("states", Json.arr [Json.arr sampleStateFields])]) =
      .error (.valueError "year is out of range") ∧
    ∀ s : States,
      States.from_json (Json.obj [("time", Json.num 1000000000000),
          ("states", Json.arr [Json.arr sampleStateFields])]) ≠ .ok s := by
  constructor
  · rfl
  · intro s hs
    rw [show States.from_json (Json.obj [("time", Json.num 1000000000000),
        ("states", Json.arr [Json.arr sampleStateFields])]) =
      .error (.valueError "year is out of range") from rfl] at hs
    exact Except.noConfusion hs

/-- C7 (amended): deserializing a `States` payload
`{"time": t, "states": [...]}` whose state rows all have at least 17
fields, with `t` inside the `datetime`-representable epoch range (years 1
to 9999; outside it `datetime.fromtimestamp` raises in `States.__init__`),
yields `time_in_sec = t` and one `StateVector` per input row (in order),
each built positionally from its row: field 0 is `icao24`, ..., field 16
is `position_source`. -/
theorem states_from_json_positional (t : Rat) (ls : List (List Json))
    (h : ∀ l ∈ ls, 17 ≤ l.length)
    (ht : ¬(t < fromtimestamp_min ∨ t > fromtimestamp_max)) :
    States.from_json (Json.obj [("time", Json.num t),
        ("states", Json.arr (ls.map Json.arr))]) =
      .ok { time_in_sec := t, states := ls.map StateVector.fromArgs } ∧
    (ls.map StateVector.fromArgs).length = ls.length ∧
    ∀ l ∈ ls,
      (StateVector.fromArgs l).icao24 = l.getD 0 .null ∧
      (StateVector.fromArgs l).callsign = l.getD 1 .null ∧
      (StateVector.fromArgs l).origin_country = l.getD 2 .null ∧
      (StateVector.fromArgs l).time_position_in_sec = l.getD 3 .null ∧
      (StateVector.fromArgs l).last_contact_in_sec = l.getD 4 .null ∧
      (StateVector.fromArgs l).longitude = l.getD 5 .null ∧
      (StateVector.fromArgs l).latitude = l.getD 6 .null ∧
      (StateVector.fromArgs l).baro_altitude_in_m = l.getD 7 .null ∧
      (StateVector.fromArgs l).on_ground = l.getD 8 .null ∧
      (StateVector.fromArgs l).velocity_in_m_per_sec = l.getD 9 .null ∧
      (StateVector.fromArgs l).true_track = l.getD 10 .null ∧
      (StateVector.fromArgs l).vertical_rate_in_m_per_sec = l.getD 11 .null ∧
      (StateVector.fromArgs l).sensors = l.getD 12 .null ∧
      (StateVector.fromArgs l).geo_altitude_in_m = l.getD 13 .null ∧
      (StateVector.fromArgs l).squawk = l.getD 14 .null ∧
      (StateVector.fromArgs l).spi = l.getD 15 .null ∧
      (StateVector.fromArgs l).position_source = l.getD 16 .null := by
  refine ⟨states_from_json_eval t ls h ht, List.length_map ls StateVector.fromArgs, ?_⟩
  intro l _
  exact ⟨rfl, rfl, rfl, rfl, rfl, rfl, rfl, rfl, rfl, rfl, rfl, rfl, rfl, rfl, rfl,
    rfl, rfl⟩

/-- Witness for C7 at the two-row fixture payload with time `1458564121`. -/
theorem states_from_json_positional_witness :
    States.from_json (Json.obj [("time", Json.num 1458564121),
        ("states", Json.arr ([sampleStateFields, sampleStateFields2].map Json.arr))]) =
      .ok { time_in_sec := 1458564121,
            states := [sampleStateFields, sampleStateFields2].map StateVector.fromArgs } ∧
    ([sampleStateFields, sampleStateFields2].map StateVector.fromArgs).length = 2 := by
  have h := states_from_json_positional 1458564121 [sampleStateFields, sampleStateFields2]
    (by decide) (by norm_num [fromtimestamp_min, fromtimestamp_max])
  exact ⟨h.1, rfl⟩

/-- C6: the operations `get_states`, `get_flight_arrivals` and
`get_flight_departures` transmit their time arguments (`time`, `begin`,
`end`) as the integer epoch-seconds equivalent: a calendar timestamp is
converted with `int(timestamp.timestamp())` and an integer is sent
unchanged - in both cases the transmitted value is `Timestamp.epoch`. -/
theorem time_parameters_normalized (request_handler : RequestHandler)
    (timestamp : Timestamp) (icao24 : Option Json) (bbox : Option BoundingBox)
    (airport : String) (begin_ end_ : Timestamp) :
    (∃ params,
       (OpenskyNetworkClient.get_states request_handler timestamp icao24 bbox).2 =
         [TransportCall.get OpenskyNetworkClient._url_states params none] ∧
       params.lookup "time" = some (Json.num (timestamp.epoch : Rat))) ∧
    (∃ params,
       (OpenskyNetworkClient.get_flight_arrivals request_handler airport begin_ end_).2 =
         [TransportCall.get OpenskyNetworkClient._url_flights_arrival params none] ∧
       params.lookup "begin" = some (Json.num (begin_.epoch : Rat)) ∧
       params.lookup "end" = some (Json.num (end_.epoch : Rat))) ∧
    (∃ params,
       (OpenskyNetworkClient.get_flight_departures request_handler airport begin_ end_).2 =
         [TransportCall.get OpenskyNetworkClient._url_flights_departure params none] ∧
       params.lookup "begin" = some (Json.num (begin_.epoch : Rat)) ∧
       params.lookup "end" = some (Json.num (end_.epoch : Rat))) := by
  refine ⟨?_, ?_, ?_⟩
  · cases timestamp <;> exact ⟨_, rfl, rfl⟩
  · cases begin_ <;> cases end_ <;> exact ⟨_, rfl, rfl, rfl⟩
  · cases begin_ <;> cases end_ <;> exact ⟨_, rfl, rfl, rfl⟩

/-- C4 (counterexample): with `many=True`, a result type, and a response
whose non-empty body parses to the empty list, `process_request` returns
the raw empty list itself, not an absent (`None`) result as the claim
states. -/
theorem process_request_many_empty_list_counterexample :
    (processRequest emptyListHandler "GET" "api/flights/arrival/" (some []) none true
        (some FlightConnection.from_json)).1 = .ok (.json (Json.arr [])) ∧
    (processRequest emptyListHandler "GET" "api/flights/arrival/" (some []) none true
        (some FlightConnection.from_json)).1 ≠ .ok .none := by
  refine ⟨rfl, ?_⟩
  rw [show (processRequest emptyListHandler "GET" "api/flights/arrival/" (some []) none true
      (some FlightConnection.from_json)).1 = .ok (.json (Json.arr [])) from rfl]
  simp

/-- C4 (amended): with `many=True` and a result type, a parsed body that
is a non-empty list of `n` elements yields exactly the `n` deserialized
objects in input order; an empty response body yields an absent (`None`)
result; and a parsed body that is the empty list yields that raw empty
list back (not `None`) - no exception in any of these cases. -/
theorem process_request_many_amended {α : Type} (request_handler : RequestHandler)
    (resp : Response) (method path : String)
    (extra_params : Option (List (String × Json))) (json : Option Json)
    (d : Json → Except PyError α)
    (hresp : ∀ c, request_handler c = resp)
    (hm : method = "GET" ∨ method = "POST" ∨ method = "DELETE" ∨ method = "PUT")
    (hgood : resp.status_code = 200 ∨ resp.status_code = 201 ∨ resp.status_code = 204) :
    (∀ elements objects, resp.json = Json.arr elements → elements ≠ [] →
       resp.content.length > 0 → elements.mapM d = .ok objects →
       (processRequest request_handler method path extra_params json true (some d)).1 =
         .ok (.objList objects) ∧ objects.length = elements.length) ∧
    (¬ resp.content.length > 0 →
       (processRequest request_handler method path extra_params json true (some d)).1 =
         .ok .none) ∧
    (resp.content.length > 0 → resp.json = Json.arr [] →
       (processRequest request_handler method path extra_params json true (some d)).1 =
         .ok (.json (Json.arr []))) := by
  refine ⟨?_, ?_, ?_⟩
  · intro elements objects hj hne hc hmap
    have ht : resp.json.truthy = true := by
      rw [hj]
      cases elements with
      | nil => exact absurd rfl hne
      | cons e es => rfl
    constructor
    · rw [processRequest_fst_supported request_handler resp hresp method path extra_params
        json true (some d) hm]
      rw [handleResponse_many_deser resp d hgood hc ht, hj]
      show (match elements.mapM d with
            | Except.error e => Except.error e
            | Except.ok objects => Except.ok (PyValue.objList objects)) =
          .ok (.objList objects)
      rw [hmap]
    · exact mapM_ok_length d elements objects hmap
  · intro hc
    rw [processRequest_fst_supported request_handler resp hresp method path extra_params
      json true (some d) hm]
    exact handleResponse_good_empty resp true (some d) hgood hc
  · intro hc hj
    have ht : resp.json.truthy = false := by rw [hj]; rfl
    rw [processRequest_fst_supported request_handler resp hresp method path extra_params
      json true (some d) hm]
    rw [handleResponse_falsy resp true (some d) hgood hc ht, hj]

/-- Witness for C4 (amended) at a concrete two-element response. -/
theorem process_request_many_amended_witness :
    (processRequest twoFlightsHandler "GET" "api/flights/arrival/" (some []) none true
        (some FlightConnection.from_json)).1 =
      .ok (.objList [sampleFlight "0101be", sampleFlight "0101bf"]) ∧
    ([sampleFlight "0101be", sampleFlight "0101bf"] : List FlightConnection).length =
      ([sampleFlightJson "0101be", sampleFlightJson "0101bf"] : List Json).length := by
  have h := (process_request_many_amended twoFlightsHandler
      { status_code := 200, content := "[two-flights]",
        json := Json.arr [sampleFlightJson "0101be", sampleFlightJson "0101bf"] }
      "GET" "api/flights/arrival/" (some []) none FlightConnection.from_json
      (fun _c => rfl) (Or.inl rfl) (Or.inl rfl)).1
      [sampleFlightJson "0101be", sampleFlightJson "0101bf"]
      [sampleFlight "0101be", sampleFlight "0101bf"]
      rfl (by simp) (by decide) (by rfl)
  exact h

/-- C8: when a result type is requested but the non-empty response body
parses to a falsy value that is not a list (such as `{}` or `0`),
deserialization is skipped and the raw parsed value is returned
unchanged. -/
theorem process_request_falsy_passthrough {α : Type} (request_handler : RequestHandler)
    (resp : Response) (method path : String)
    (extra_params : Option (List (String × Json))) (json : Option Json) (many : Bool)
    (d : Json → Except PyError α)
    (hresp : ∀ c, request_handler c = resp)
    (hm : method = "GET" ∨ method = "POST" ∨ method = "DELETE" ∨ method = "PUT")
    (hgood : resp.status_code = 200 ∨ resp.status_code = 201 ∨ resp.status_code = 204)
    (hc : resp.content.length > 0)
    (ht : resp.json.truthy = false)
    (hnl : ∀ elements, resp.json ≠ Json.arr elements) :
    (processRequest request_handler method path extra_params json many (some d)).1 =
      .ok (.json resp.json) := by
  rw [processRequest_fst_supported request_handler resp hresp method path extra_params
    json many (some d) hm]
  exact handleResponse_falsy resp many (some d) hgood hc ht

/-- Witness for C8 at the concrete falsy non-list body `{}`. -/
theorem process_request_falsy_passthrough_witness :
    (processRequest emptyObjHandler "GET" "api/airports/" none none false
        (some Airport.from_json)).1 = .ok (.json (Json.obj [])) :=
  process_request_falsy_passthrough emptyObjHandler
    { status_code := 200, content := "\x7b\x7d", json := Json.obj [] }
    "GET" "api/airports/" none none false Airport.from_json
    (fun _c => rfl) (Or.inl rfl) (Or.inl rfl) (by decide) rfl
    (fun _elements hh => Json.noConfusion hh)

/-- A deserializer known never to raise `APIError`, packaged in the form
the status-handling theorem consumes. -/
theorem hrc_of {α : Type} (f : Json → Except PyError α) (hf : ∀ j, NoApiError (f j)) :
    ∀ d, some f = some d → ∀ jj, NoApiError (d jj) :=
  fun d hd jj => (Option.some.inj hd) ▸ hf jj

/-- C3: for every supported-method call, a response status code outside
200/201/204 makes `process_request` - and, through delegation, each of the
four client operations - raise `APIError` built from the response status
and body, while a status in 200/201/204 never produces an `APIError`
(given deserializers that do not raise one themselves, which all model
deserializers satisfy). -/
theorem process_request_status_handling {α : Type} (request_handler : RequestHandler)
    (resp : Response) (method path : String)
    (extra_params : Option (List (String × Json))) (json : Option Json) (many : Bool)
    (rc : Option (Json → Except PyError α))
    (hresp : ∀ c, request_handler c = resp)
    (hm : method = "GET" ∨ method = "POST" ∨ method = "DELETE" ∨ method = "PUT")
    (hrc : ∀ d, rc = some d → ∀ jj, NoApiError (d jj)) :
    (¬(resp.status_code = 200 ∨ resp.status_code = 201 ∨ resp.status_code = 204) →
       (processRequest request_handler method path extra_params json many rc).1 =
         .error (.apiError resp.status_code resp.content) ∧
       (∀ timestamp icao24 bbox,
         (OpenskyNetworkClient.get_states request_handler timestamp icao24 bbox).1 =
           .error (.apiError resp.status_code resp.content)) ∧
       (∀ airport begin_ end_,
         (OpenskyNetworkClient.get_flight_arrivals request_handler airport begin_ end_).1 =
           .error (.apiError resp.status_code resp.content) ∧
         (OpenskyNetworkClient.get_flight_departures request_handler airport begin_ end_).1 =
           .error (.apiError resp.status_code resp.content)) ∧
       (∀ icao,
         (OpenskyNetworkClient.get_airport request_handler icao).1 =
           .error (.apiError resp.status_code resp.content))) ∧
    ((resp.status_code = 200 ∨ resp.status_code = 201 ∨ resp.status_code = 204) →
       (∀ s c, (processRequest request_handler method path extra_params json many rc).1 ≠
         .error (.apiError s c)) ∧
       (∀ timestamp icao24 bbox s c,
         (OpenskyNetworkClient.get_states request_handler timestamp icao24 bbox).1 ≠
           .error (.apiError s c)) ∧
       (∀ airport begin_ end_ s c,
         (OpenskyNetworkClient.get_flight_arrivals request_handler airport begin_ end_).1 ≠
           .error (.apiError s c) ∧
         (OpenskyNetworkClient.get_flight_departures request_handler airport begin_ end_).1 ≠
           .error (.apiError s c)) ∧
       (∀ icao s c,
         (OpenskyNetworkClient.get_airport request_handler icao).1 ≠
           .error (.apiError s c))) := by
  constructor
  · intro hbad
    refine ⟨?_, ?_, ?_, ?_⟩
    · rw [processRequest_fst_supported request_handler resp hresp method path extra_params
        json many rc hm]
      exact handleResponse_apiError resp many rc hbad
    · intro timestamp icao24 bbox
      have e : (OpenskyNetworkClient.get_states request_handler timestamp icao24 bbox).1 =
          handleResponse resp false (some States.from_json) :=
        processRequest_fst_supported request_handler resp hresp "GET" _ _ _ _ _ (Or.inl rfl)
      rw [e]
      exact handleResponse_apiError resp false _ hbad
    · intro airport begin_ end_
      constructor
      · have e : (OpenskyNetworkClient.get_flight_arrivals request_handler airport begin_ end_).1 =
            handleResponse resp true (some FlightConnection.from_json) :=
          processRequest_fst_supported request_handler resp hresp "GET" _ _ _ _ _ (Or.inl rfl)
        rw [e]
        exact handleResponse_apiError resp true _ hbad
      · have e : (OpenskyNetworkClient.get_flight_departures request_handler airport begin_ end_).1 =
            handleResponse resp true (some FlightConnection.from_json) :=
          processRequest_fst_supported request_handler resp hresp "GET" _ _ _ _ _ (Or.inl rfl)
        rw [e]
        exact handleResponse_apiError resp true _ hbad
    · intro icao
      have e : (OpenskyNetworkClient.get_airport request_handler icao).1 =
          handleResponse resp false (some Airport.from_json) :=
        processRequest_fst_supported request_handler resp hresp "GET" _ _ _ _ _ (Or.inl rfl)
      rw [e]
      exact handleResponse_apiError resp false _ hbad
  · intro hgood
    refine ⟨?_, ?_, ?_, ?_⟩
    · intro s c
      rw [processRequest_fst_supported request_handler resp hresp method path extra_params
        json many rc hm]
      exact handleResponse_noApiError resp many rc hgood hrc s c
    · intro timestamp icao24 bbox s c
      have e : (OpenskyNetworkClient.get_states request_handler timestamp icao24 bbox).1 =
          handleResponse resp false (some States.from_json) :=
        processRequest_fst_supported request_handler resp hresp "GET" _ _ _ _ _ (Or.inl rfl)
      rw [e]
      exact handleResponse_noApiError resp false _ hgood
        (hrc_of States.from_json noApiError_states_from_json) s c
    · intro airport begin_ end_ s c
      constructor
      · have e : (OpenskyNetworkClient.get_flight_arrivals request_handler airport begin_ end_).1 =
            handleResponse resp true (some FlightConnection.from_json) :=
          processRequest_fst_supported request_handler resp hresp "GET" _ _ _ _ _ (Or.inl rfl)
        rw [e]
        exact handleResponse_noApiError resp true _ hgood
          (hrc_of FlightConnection.from_json noApiError_flightconnection_from_json) s c
      · have e : (OpenskyNetworkClient.get_flight_departures request_handler airport begin_ end_).1 =
            handleResponse resp true (some FlightConnection.from_json) :=
          processRequest_fst_supported request_handler resp hresp "GET" _ _ _ _ _ (Or.inl rfl)
        rw [e]
        exact handleResponse_noApiError resp true _ hgood
          (hrc_of FlightConnection.from_json noApiError_flightconnection_from_json) s c
    · intro icao s c
      have e : (OpenskyNetworkClient.get_airport request_handler icao).1 =
          handleResponse resp false (some Airport.from_json) :=
        processRequest_fst_supported request_handler resp hresp "GET" _ _ _ _ _ (Or.inl rfl)
      rw [e]
      exact handleResponse_noApiError resp false _ hgood
        (hrc_of Airport.from_json noApiError_airport_from_json) s c

/-- Witness for C3: a concrete `404` response raises `APIError 404`, and a
concrete `200` response never raises `APIError`. -/
theorem process_request_status_handling_witness :
    (processRequest notFoundHandler "GET" "api/states/all/" none none false
        (none : Option (Json → Except PyError States))).1 =
      .error (.apiError 404 "Not Found") ∧
    ∀ s c, (processRequest okNullHandler "GET" "api/states/all/" none none false
        (none : Option (Json → Except PyError States))).1 ≠ .error (.apiError s c) := by
  constructor
  · exact ((process_request_status_handling notFoundHandler
      { status_code := 404, content := "Not Found", json := Json.null }
      "GET" "api/states/all/" none none false none (fun _c => rfl) (Or.inl rfl)
      (fun _d hd => Option.noConfusion hd)).1 (by decide)).1
  · exact ((process_request_status_handling okNullHandler
      { status_code := 200, content := "null", json := Json.null }
      "GET" "api/states/all/" none none false none (fun _c => rfl) (Or.inl rfl)
      (fun _d hd => Option.noConfusion hd)).2 (by decide)).1

/-- Inverting a successful `Airport.from_json`: the nested position was
built by `Position.from_json` from the mapping under the "position" key. -/
theorem airport_from_json_position (j : Json) (a : Airport)
    (h : Airport.from_json j = .ok a) :
    ∃ pj, j.getItem "position" = .ok pj ∧ Position.from_json pj = .ok a.position := by
  unfold Airport.from_json at h
  rw [bind_eq_ok_iff] at h
  obtain ⟨icao, h1, h⟩ := h
  rw [bind_eq_ok_iff] at h
  obtain ⟨iata, h2, h⟩ := h
  rw [bind_eq_ok_iff] at h
  obtain ⟨name, h3, h⟩ := h
  rw [bind_eq_ok_iff] at h
  obtain ⟨city, h4, h⟩ := h
  rw [bind_eq_ok_iff] at h
  obtain ⟨ty, h5, h⟩ := h
  rw [bind_eq_ok_iff] at h
  obtain ⟨pj, h6, h⟩ := h
  rw [bind_eq_ok_iff] at h
  obtain ⟨pos, h7, h⟩ := h
  rw [bind_eq_ok_iff] at h
  obtain ⟨cont, h8, h⟩ := h
  rw [bind_eq_ok_iff] at h
  obtain ⟨country, h9, h⟩ := h
  rw [bind_eq_ok_iff] at h
  obtain ⟨region, h10, h⟩ := h
  rw [bind_eq_ok_iff] at h
  obtain ⟨municipality, h11, h⟩ := h
  rw [bind_eq_ok_iff] at h
  obtain ⟨gpsCode, h12, h⟩ := h
  rw [bind_eq_ok_iff] at h
  obtain ⟨homepage, h13, h⟩ := h
  rw [bind_eq_ok_iff] at h
  obtain ⟨wikipedia, h14, h⟩ := h
  refine ⟨pj, h6, ?_⟩
  rw [h7, ← Except.ok.inj h]

/-- C1: `get_airport(icao)` transmits the single query parameter `icao`,
and every successful typed call returns exactly one `Airport` whose nested
`position` field is a `Position` built by `Position.from_json` from the
"position" mapping of the response body. -/
theorem get_airport_returns_airport (request_handler : RequestHandler) (icao : String)
    (a : Airport)
    (h : (OpenskyNetworkClient.get_airport request_handler icao).1 = .ok (.obj a)) :
    (OpenskyNetworkClient.get_airport request_handler icao).2 =
      [TransportCall.get OpenskyNetworkClient._url_airports [("icao", Json.str icao)] none] ∧
    ∃ pj,
      (request_handler (TransportCall.get OpenskyNetworkClient._url_airports
          [("icao", Json.str icao)] none)).json.getItem "position" = .ok pj ∧
      Position.from_json pj = .ok a.position := by
  refine ⟨rfl, ?_⟩
  have hh : handleResponse (request_handler (TransportCall.get
      OpenskyNetworkClient._url_airports [("icao", Json.str icao)] none)) false
      (some Airport.from_json) = .ok (.obj a) := h
  generalize hR : request_handler (TransportCall.get OpenskyNetworkClient._url_airports
      [("icao", Json.str icao)] none) = resp at hh ⊢
  by_cases hgood : resp.status_code = 200 ∨ resp.status_code = 201 ∨ resp.status_code = 204
  · by_cases hc : resp.content.length > 0
    · cases ht : resp.json.truthy with
      | false =>
          rw [handleResponse_falsy resp false _ hgood hc ht] at hh
          exact PyValue.noConfusion (Except.ok.inj hh)
      | true =>
          rw [handleResponse_single_deser resp Airport.from_json hgood hc ht] at hh
          cases hd : Airport.from_json resp.json with
          | error e =>
              rw [hd] at hh
              exact Except.noConfusion hh
          | ok a2 =>
              rw [hd] at hh
              have : a2 = a := PyValue.obj.inj (Except.ok.inj hh)
              rw [← this]
              exact airport_from_json_position resp.json a2 hd
    · rw [handleResponse_good_empty resp false _ hgood hc] at hh
      exact PyValue.noConfusion (Except.ok.inj hh)
  · rw [handleResponse_apiError resp false _ hgood] at hh
    exact Except.noConfusion hh

/-- Witness for C1 at the sample airport response. -/
theorem get_airport_returns_airport_witness :
    (OpenskyNetworkClient.get_airport airportHandler "EDDF").2 =
      [TransportCall.get OpenskyNetworkClient._url_airports [("icao", Json.str "EDDF")] none] ∧
    ∃ pj,
      (airportHandler (TransportCall.get OpenskyNetworkClient._url_airports
          [("icao", Json.str "EDDF")] none)).json.getItem "position" = .ok pj ∧
      Position.from_json pj = .ok sampleAirport.position :=
  get_airport_returns_airport airportHandler "EDDF" sampleAirport (by rfl)

end Opensky
